import Mathlib

/-!
Shallow embedding of the ownership / passing-mode and type-tag dispatch core of
the LibraryLinkUtilities repository, together with theorems settling the frozen
claims about its specification.

Sources embedded:
 - src/include/LLU/MArgumentManager.h (setMintAndCheck, operateOnNumericArray,
   operateOnTensor, operateOnImage)
 - src/include/LLU/Containers/Generic/DataStore.hpp (GenericDataList)
 - src/include/LLU/Containers/Generic/Image.hpp (GenericImage)
 - src/include/LLU/Containers/Generic/Tensor.hpp (GenericTensor)
 - src/src/LibraryLinkError.cpp (ErrorManager)
Parts of the repository that these headers rely on but that are absent from the
source slice (notably Containers/Generic/Base.hpp) are modelled from the spec,
and each such definition says so in its doc comment.
-/

namespace LLU

/-- Ownership values used by the newer MContainerBase (Ownership era), as used by
the DataStore wrapper: who owns the raw container. -/
inductive Ownership
  | LibraryLink
  | Library
  | Shared
deriving DecidableEq, Repr

/-- Passing policies of the template-parameter era wrappers (GenericImage,
GenericTensor): Automatic, Manual, Shared, Constant. -/
inductive PassingMode
  | Automatic
  | Manual
  | Shared
  | Constant
deriving DecidableEq, Repr

/-! ## Error names

`src/src/LibraryLinkError.cpp` defines each error name as a string equal to its
identifier (macro LLU_DEFINE_ERROR_NAME). We reproduce the ones the claims
touch. The newer headers in the slice refer to the same registry through the
`ErrorName` alias, so a single namespace is used here. -/

namespace ErrorName

def MArgumentNumericArrayError : String := "MArgumentNumericArrayError"

def MArgumentTensorError : String := "MArgumentTensorError"

def MArgumentImageError : String := "MArgumentImageError"

def ErrorManagerCreateNameError : String := "ErrorManagerCreateNameError"

def ImageNewError : String := "ImageNewError"

def ImageCloneError : String := "ImageCloneError"

def TensorCloneError : String := "TensorCloneError"

def DLInvalidNodeType : String := "DLInvalidNodeType"

end ErrorName

/-! ## mint limits and setMintAndCheck (MArgumentManager.h lines 417-421, 443-458)

`mint` is a 64-bit signed integer; MINT_MAX and MINT_MIN are its numeric
limits. `setMintAndCheck` is modelled over mathematical integers (value
semantics of the integral argument). Its result is the pair (value stored into
the output MArgument by setInteger, returned bool). -/

def MINT_MAX : Int := 2 ^ 63 - 1

def MINT_MIN : Int := -(2 ^ 63)

/-- Embedding of `MArgumentManager::setMintAndCheck` (MArgumentManager.h 443-458)
at the instantiations whose comparisons with mint are value-preserving under
the C++ usual arithmetic conversions: every signed integral T, and unsigned T
narrower than 64 bits (their values convert to the common type without change,
so the comparisons are the mathematical ones). Returns the value passed to
`setInteger` together with the boolean result. The unsigned 64-bit
instantiation behaves differently and is embedded separately below. -/
def setMintAndCheck (result : Int) : Int × Bool :=
  if result ≥ MINT_MAX then (MINT_MAX, true)
  else if result ≤ MINT_MIN then (MINT_MIN, true)
  else (result, false)

/-- The C++ conversion of a mint value to uint64 (usual arithmetic conversions
when one operand is a 64-bit unsigned type): reduction modulo 2^64. In
particular MINT_MAX converts to 2^63 - 1 and MINT_MIN converts to 2^63. -/
def uint64OfMint (v : Int) : Nat :=
  (v % 2 ^ 64).toNat

/-- The implementation's conversion of a uint64 value to mint in
`setInteger(result)`: two's-complement reinterpretation. -/
def mintOfUInt64 (n : Nat) : Int :=
  if n < 2 ^ 63 then (n : Int) else (n : Int) - 2 ^ 64

/-- Embedding of `MArgumentManager::setMintAndCheck` (MArgumentManager.h
443-458) at an unsigned 64-bit instantiation (T = uint64_t / size_t). The
usual arithmetic conversions take both comparisons to uint64: `result >=
MINT_MAX` compares against uint64OfMint MINT_MAX = 2^63 - 1, and `result <=
MINT_MIN` compares against uint64OfMint MINT_MIN = 2^63 (the wrapped bound),
so the final else branch is unreachable for inputs below 2^64. -/
def setMintAndCheckUInt64 (result : Nat) : Int × Bool :=
  if result ≥ uint64OfMint MINT_MAX then (MINT_MAX, true)
  else if result ≤ uint64OfMint MINT_MIN then (MINT_MIN, true)
  else (mintOfUInt64 result, false)

/-! ## Type tags and dispatch (MArgumentManager.h lines 470-513, 570-586, 617-639)

The numeric values of the tag constants come from the host's public headers
(WolframNumericArrayLibrary.h, WolframLibrary.h, WolframImageLibrary.h), which
are external collaborators of the repository; only their distinctness matters
for the dispatch code. -/

def MNumericArray_Type_Bit8 : Int := 1

def MNumericArray_Type_UBit8 : Int := 2

def MNumericArray_Type_Bit16 : Int := 3

def MNumericArray_Type_UBit16 : Int := 4

def MNumericArray_Type_Bit32 : Int := 5

def MNumericArray_Type_UBit32 : Int := 6

def MNumericArray_Type_Bit64 : Int := 7

def MNumericArray_Type_UBit64 : Int := 8

def MNumericArray_Type_Real32 : Int := 9

def MNumericArray_Type_Real64 : Int := 10

def MNumericArray_Type_Complex_Real32 : Int := 11

def MNumericArray_Type_Complex_Real64 : Int := 12

def MType_Integer : Int := 2

def MType_Real : Int := 3

def MType_Complex : Int := 4

def MImage_Type_Bit : Int := 1

def MImage_Type_Bit8 : Int := 2

def MImage_Type_Bit16 : Int := 3

def MImage_Type_Real32 : Int := 4

def MImage_Type_Real : Int := 5

/-- Native element types at which the dispatchers instantiate the caller's
operation. -/
inductive NativeType
  | int8
  | uint8
  | int16
  | uint16
  | int32
  | uint32
  | int64
  | uint64
  | float32
  | float64
  | complexFloat
  | complexDouble
  | mintType
deriving DecidableEq, Repr

/-- Outcome of one dispatch: the list of invocations of the caller-supplied
operation (native type it was instantiated at, argument index it was applied
to) and, possibly, a raised error (error name, debug message). -/
structure DispatchOutcome where
  calls : List (NativeType × Nat)
  raised : Option (String × String)
deriving DecidableEq, Repr

/-- Embedding of `MArgumentManager::operateOnNumericArray` (MArgumentManager.h
470-513): switch over the NumericArray run-time type tag; each case invokes the
operation once on the typed array at position `index`; the default case throws
MArgumentNumericArrayError with a debug message carrying the argument index. -/
def operateOnNumericArray (index : Nat) (tag : Int) : DispatchOutcome :=
  if tag = MNumericArray_Type_Bit8 then ⟨[(NativeType.int8, index)], none⟩
  else if tag = MNumericArray_Type_UBit8 then ⟨[(NativeType.uint8, index)], none⟩
  else if tag = MNumericArray_Type_Bit16 then ⟨[(NativeType.int16, index)], none⟩
  else if tag = MNumericArray_Type_UBit16 then ⟨[(NativeType.uint16, index)], none⟩
  else if tag = MNumericArray_Type_Bit32 then ⟨[(NativeType.int32, index)], none⟩
  else if tag = MNumericArray_Type_UBit32 then ⟨[(NativeType.uint32, index)], none⟩
  else if tag = MNumericArray_Type_Bit64 then ⟨[(NativeType.int64, index)], none⟩
  else if tag = MNumericArray_Type_UBit64 then ⟨[(NativeType.uint64, index)], none⟩
  else if tag = MNumericArray_Type_Real32 then ⟨[(NativeType.float32, index)], none⟩
  else if tag = MNumericArray_Type_Real64 then ⟨[(NativeType.float64, index)], none⟩
  else if tag = MNumericArray_Type_Complex_Real32 then ⟨[(NativeType.complexFloat, index)], none⟩
  else if tag = MNumericArray_Type_Complex_Real64 then ⟨[(NativeType.complexDouble, index)], none⟩
  else ⟨[], some (ErrorName.MArgumentNumericArrayError,
    "Incorrect type of NumericArray argument. Argument index: " ++ toString index)⟩

/-- Embedding of `MArgumentManager::operateOnTensor` (MArgumentManager.h
570-586): switch over the Tensor run-time type tag. -/
def operateOnTensor (index : Nat) (tag : Int) : DispatchOutcome :=
  if tag = MType_Integer then ⟨[(NativeType.mintType, index)], none⟩
  else if tag = MType_Real then ⟨[(NativeType.float64, index)], none⟩
  else if tag = MType_Complex then ⟨[(NativeType.complexDouble, index)], none⟩
  else ⟨[], some (ErrorName.MArgumentTensorError,
    "Incorrect type of Tensor argument. Argument index: " ++ toString index)⟩

/-- Embedding of `MArgumentManager::operateOnImage` (MArgumentManager.h
617-639): switch over the Image run-time type tag. -/
def operateOnImage (index : Nat) (tag : Int) : DispatchOutcome :=
  if tag = MImage_Type_Bit then ⟨[(NativeType.int8, index)], none⟩
  else if tag = MImage_Type_Bit8 then ⟨[(NativeType.uint8, index)], none⟩
  else if tag = MImage_Type_Bit16 then ⟨[(NativeType.uint16, index)], none⟩
  else if tag = MImage_Type_Real32 then ⟨[(NativeType.float32, index)], none⟩
  else if tag = MImage_Type_Real then ⟨[(NativeType.float64, index)], none⟩
  else ⟨[], some (ErrorName.MArgumentImageError,
    "Incorrect type of Image argument. Argument index: " ++ toString index)⟩

/-- The closed enumeration of NumericArray element-kind tags handled by the
dispatch switch. -/
def naEnumTags : List Int := [1, 2, 3, 4, 5, 6, 7, 8, 9, 10, 11, 12]

/-- The closed enumeration of Tensor element-kind tags handled by the dispatch
switch. -/
def tenEnumTags : List Int := [2, 3, 4]

/-- The closed enumeration of Image element-kind tags handled by the dispatch
switch. -/
def imEnumTags : List Int := [1, 2, 3, 4, 5]

/-- A character-list begins with the given needle. -/
def leadsWith : List Char → List Char → Bool
  | [], _ => true
  | _ :: _, [] => false
  | a :: as, b :: bs => a = b && leadsWith as bs

/-- A character-list contains the given needle as a contiguous segment. -/
def hasSeg (needle : List Char) : List Char → Bool
  | [] => leadsWith needle []
  | b :: bs => leadsWith needle (b :: bs) || hasSeg needle bs

/-- String containment used to formalise "the message carries value v". -/
def strCarries (needle hay : String) : Bool :=
  hasSeg needle.toList hay.toList

/-- Does a dispatch outcome raise an error whose debug message carries the
numeric tag value? (Formalisation of the claim "raises the error carrying the
numeric tag value for diagnostics".) -/
def raisedCarriesTagValue (out : DispatchOutcome) (tag : Int) : Bool :=
  match out.raised with
  | none => false
  | some p => strCarries (toString tag) p.2

/-! ## DataStore nodes (DataStore.hpp)

A DataStore node carries an optional name and a value of one of the LibraryLink
argument kinds. MTensor and MNumericArray are the same underlying C type
(DataStore.hpp doc comments at lines 107-110 and 29-30), so at run time they
form a single ambiguous dual-purpose kind, modelled by one constructor.
The floating-point payloads are carried as opaque bit patterns; no arithmetic
on them is modelled. -/

/-- Run-time kinds of DataStore node values. -/
inductive MArgKind
  | MBoolean
  | MInteger
  | MReal
  | MComplex
  | MString
  | MTensorOrNumericArray
  | MImage
  | MDataStore
deriving DecidableEq, Repr

/-- A DataStore node value. -/
inductive NodeValue
  | boolVal (b : Bool)
  | intVal (i : Int)
  | realVal (bits : Int)
  | complexVal (re im : Int)
  | strVal (s : String)
  | tensorOrNumericArrayVal (h : Nat)
  | imageVal (h : Nat)
  | dataStoreVal (h : Nat)
deriving DecidableEq, Repr

/-- The run-time kind of a node value, i.e. which alternative of the
Argument::Typed::Any variant it holds. -/
def NodeValue.kind : NodeValue → MArgKind
  | .boolVal _ => .MBoolean
  | .intVal _ => .MInteger
  | .realVal _ => .MReal
  | .complexVal _ _ => .MComplex
  | .strVal _ => .MString
  | .tensorOrNumericArrayVal _ => .MTensorOrNumericArray
  | .imageVal _ => .MImage
  | .dataStoreVal _ => .MDataStore

/-- One node of a raw DataStore: optional name plus value. -/
structure DataNode where
  name : Option String
  value : NodeValue
deriving DecidableEq, Repr

/-- Embedding of `GenericDataNode::as<T>` (DataStore.hpp 225-233): read the
node's value variant; if it holds the requested alternative return the stored
value, otherwise throw ErrorName::DLInvalidNodeType via ErrorManager. -/
def GenericDataNode.as (T : MArgKind) (v : NodeValue) : Except String NodeValue :=
  if v.kind = T then Except.ok v else Except.error ErrorName.DLInvalidNodeType

/-- Modelled from the spec: the body of
`GenericDataList::push_back(const Argument::Typed::Any&)` is only declared in
the slice (DataStore.hpp lines 172 and 179); per spec section 4.4 the append
"fails with UnsupportedNodeTypeError if value's run-time kind is the ambiguous
dual-purpose kind described in section 9", and otherwise appends the node at
the tail. The spec's error name is used for the modelled failure. -/
def GenericDataList.pushBackAny (nodes : List DataNode) (name : Option String) (v : NodeValue) :
    Except String (List DataNode) :=
  if v.kind = MArgKind.MTensorOrNumericArray then
    Except.error ("UnsupportedNodeTypeError")
  else
    Except.ok (nodes ++ [⟨name, v⟩])

/-! ## Host model for DataStore and the GenericDataList wrapper

The host's DataStoreAPI (createDataStore, copyDataStore, DataStore_getLength,
...) is an external collaborator; it is modelled as an association list from
handles to node lists plus a fresh-handle counter, with `copyDataStore`
allocating a fresh handle holding the same node sequence (a deep copy: the new
handle is distinct from every live one). -/

/-- Association-list lookup by handle (model of the host's handle table). -/
def assocFind {α : Type} (k : Nat) : List (Nat × α) → Option α
  | [] => none
  | p :: rest => if k = p.1 then some p.2 else assocFind k rest

/-- The host's DataStore storage. -/
structure DSHost where
  stores : List (Nat × List DataNode)
  nextHandle : Nat
deriving DecidableEq, Repr

/-- Host well-formedness: the fresh-handle counter is above every live handle. -/
def DSHost.wf (h : DSHost) : Prop :=
  ∀ p ∈ h.stores, p.1 < h.nextHandle

instance (h : DSHost) : Decidable (DSHost.wf h) := by
  unfold DSHost.wf; infer_instance

/-- Model of the host call `DataStoreAPI()->copyDataStore`: allocate a fresh
handle containing the same node sequence as the source. -/
def DSHost.copyDataStore (host : DSHost) (h : Nat) : Nat × DSHost :=
  (host.nextHandle,
   ⟨host.stores ++ [(host.nextHandle, (assocFind h host.stores).getD [])], host.nextHandle + 1⟩)

/-- The GenericDataList wrapper: raw container handle plus ownership
(MContainerBase of the Ownership era). -/
structure GenericDataList where
  container : Nat
  owner : Ownership
deriving DecidableEq, Repr

/-- Modelled from the spec: the body of
`MContainer<MArgumentType::DataStore>::MContainer(Container, Ownership)` is only
declared in the slice (DataStore.hpp line 50); its doc note (line 48) and spec
section 3 say "An exception will be thrown if you try to create a Shared
DataStore because LibraryLink does not allow for shared DataStores". -/
def GenericDataList.construct (c : Nat) (owner : Ownership) : Except String GenericDataList :=
  if owner = Ownership.Shared then
    Except.error ("SharedDataStoreError")
  else
    Except.ok ⟨c, owner⟩

/-- Embedding of `MContainer<MArgumentType::DataStore>::cloneImpl` (DataStore.hpp
183-185): deep copy of the raw container via the host's copyDataStore. -/
def GenericDataList.cloneImpl (host : DSHost) (w : GenericDataList) : Nat × DSHost :=
  host.copyDataStore w.container

/-- Embedding of `MContainer<MArgumentType::DataStore>::clone` (DataStore.hpp
57-59): `MContainer {cloneContainer(), Ownership::Library}`. The intermediate
`cloneContainer` lives in Base.hpp (absent from the slice); modelled from the
spec as delegating to `cloneImpl` ("clone() always performs a host-level deep
copy", section 4.2). -/
def GenericDataList.clone (host : DSHost) (w : GenericDataList) : GenericDataList × DSHost :=
  let r := GenericDataList.cloneImpl host w
  (⟨r.1, Ownership.Library⟩, r.2)

/-- Embedding of `MContainer<MArgumentType::DataStore>::shareCountImpl`
(DataStore.hpp 191-193): "always 0 to indicate that DataStore cannot be
shared". The wrapper state and host are taken as arguments to record that the
result depends on neither. -/
def GenericDataList.shareCountImpl (_w : GenericDataList) (_host : DSHost) : Int :=
  0

/-- Embedding of `MContainer<MArgumentType::DataStore>::length` (DataStore.hpp
65-67): queries the host directly. -/
def GenericDataList.length (host : DSHost) (w : GenericDataList) : Int :=
  ((assocFind w.container host.stores).getD []).length

/-! ## Operation sequences over a world of DataStore wrappers (for the
share-count invariant)

A world holds the host state and any number of wrapper instances, possibly
aliasing the same raw handle. Operations append nodes through a wrapper, clone
a wrapper, or create an additional wrapper aliasing an existing handle. -/

/-- A world: host plus all live wrapper instances. -/
structure DSWorld where
  host : DSHost
  wrappers : List GenericDataList
deriving DecidableEq, Repr

/-- Operations on a DataStore world. -/
inductive DSOp
  | pushBack (wrapperIdx : Nat) (name : Option String) (v : NodeValue)
  | cloneWrapper (wrapperIdx : Nat)
  | aliasHandle (wrapperIdx : Nat) (owner : Ownership)
deriving DecidableEq, Repr

/-- Append a node to the raw store behind handle `h` (host side of push_back). -/
def DSHost.appendNode (host : DSHost) (h : Nat) (n : DataNode) : DSHost :=
  ⟨host.stores.map (fun p => if p.1 = h then (p.1, p.2 ++ [n]) else p), host.nextHandle⟩

/-- One step of the world semantics. -/
def DSWorld.step (w : DSWorld) : DSOp → DSWorld
  | .pushBack i name v =>
    match w.wrappers.get? i with
    | none => w
    | some g =>
      match GenericDataList.pushBackAny ((assocFind g.container w.host.stores).getD []) name v with
      | .error _ => w
      | .ok _ => ⟨w.host.appendNode g.container ⟨name, v⟩, w.wrappers⟩
  | .cloneWrapper i =>
    match w.wrappers.get? i with
    | none => w
    | some g =>
      let r := GenericDataList.clone w.host g
      ⟨r.2, w.wrappers ++ [r.1]⟩
  | .aliasHandle i owner =>
    match w.wrappers.get? i with
    | none => w
    | some g =>
      match GenericDataList.construct g.container owner with
      | .error _ => w
      | .ok g2 => ⟨w.host, w.wrappers ++ [g2]⟩

/-- Run a sequence of operations on a world. -/
def DSWorld.run (w : DSWorld) : List DSOp → DSWorld
  | [] => w
  | op :: rest => (w.step op).run rest

/-! ## Host model for MImage and the GenericImage wrapper (Image.hpp)

The host ImageAPI is an external collaborator; an image is modelled by its
element-kind tag, interleaving flag and raw data, stored in a handle table.
`MImage_clone` copies an image to a fresh handle; `MImage_convertType` produces
a fresh image whose element kind is the requested target (per the host's
documented behaviour) or rejects the conversion, signalled by a null result. -/

/-- The host-side content of one MImage. -/
structure ImageData where
  itype : Int
  interleaved : Bool
  data : List Int
deriving DecidableEq, Repr

/-- The host's MImage storage. -/
structure ImHost where
  images : List (Nat × ImageData)
  nextHandle : Nat
deriving DecidableEq, Repr

/-- Host well-formedness: the fresh-handle counter is above every live handle. -/
def ImHost.wf (h : ImHost) : Prop :=
  ∀ p ∈ h.images, p.1 < h.nextHandle

instance (h : ImHost) : Decidable (ImHost.wf h) := by
  unfold ImHost.wf; infer_instance

/-- Model of the host call `ImageAPI()->MImage_clone`: deep copy to a fresh
handle, or failure (none) when the source handle is dead. -/
def ImHost.cloneImage (host : ImHost) (h : Nat) : Option (Nat × ImHost) :=
  match assocFind h host.images with
  | none => none
  | some img => some (host.nextHandle, ⟨host.images ++ [(host.nextHandle, img)], host.nextHandle + 1⟩)

/-- Model of the host call `ImageAPI()->MImage_convertType`: a fresh image whose
element kind is the requested target type and whose interleaving is as
requested (data conversion itself is the host's business and is kept
abstract as the identity on the payload), or rejection (none) when the source
handle is dead. -/
def ImHost.convertType (host : ImHost) (h : Nat) (t : Int) (interleavingQ : Bool) :
    Option (Nat × ImHost) :=
  match assocFind h host.images with
  | none => none
  | some img =>
    some (host.nextHandle,
      ⟨host.images ++ [(host.nextHandle, ⟨t, interleavingQ, img.data⟩)], host.nextHandle + 1⟩)

/-- The GenericImage wrapper of the PassingMode-template era: raw container
handle plus passing mode. -/
structure GenericImage where
  container : Nat
  passMode : PassingMode
deriving DecidableEq, Repr

/-- Embedding of `MContainer<MArgumentType::Image, PassingMode>::cloneImpl`
(Image.hpp 230-236): call the host's MImage_clone; on host failure throw
ErrorName::ImageCloneError, otherwise return the fresh raw container. -/
def GenericImage.cloneImpl (host : ImHost) (w : GenericImage) : Except String (Nat × ImHost) :=
  match host.cloneImage w.container with
  | none => Except.error ErrorName.ImageCloneError
  | some r => Except.ok r

/-- Modelled from the spec: `MContainerBase::clone()` lives in
Containers/Generic/Base.hpp, absent from the slice. Per spec section 4.2,
"Cloning (clone()) always performs a host-level deep copy and returns a new
wrapper whose ownership is Library-owned, regardless of the source's policy";
the deep copy is obtained from `cloneImpl` (which is in the slice). The result
records the fresh raw container together with its Library ownership. -/
def GenericImage.clone (host : ImHost) (w : GenericImage) :
    Except String ((Nat × Ownership) × ImHost) :=
  match GenericImage.cloneImpl host w with
  | Except.error e => Except.error e
  | Except.ok r => Except.ok ((r.1, Ownership.Library), r.2)

/-- Embedding of `MContainer<MArgumentType::Image, PassingMode>::convert`
(Image.hpp 105-111): call the host's MImage_convertType; if it returns null,
throw ErrorName::ImageNewError with the message "Conversion to type <t>
failed."; otherwise return the new image as a GenericImage with Manual passing
mode (the declared return type is GenericImage<Passing::Manual>). -/
def GenericImage.convert (host : ImHost) (w : GenericImage) (t : Int) (interleavingQ : Bool) :
    Except (String × String) (GenericImage × ImHost) :=
  match host.convertType w.container t interleavingQ with
  | none =>
    Except.error (ErrorName.ImageNewError, "Conversion to type " ++ toString t ++ " failed.")
  | some r => Except.ok (⟨r.1, PassingMode.Manual⟩, r.2)

/-- Embedding of `interleavedQ` (Image.hpp 175-177): queries the host. -/
def GenericImage.interleavedQ (host : ImHost) (w : GenericImage) : Bool :=
  ((assocFind w.container host.images).getD ⟨0, false, []⟩).interleaved

/-- Embedding of the one-argument `convert` overload (Image.hpp 119-121):
`convert(t, interleavedQ())`. -/
def GenericImage.convertKeepingInterleaving (host : ImHost) (w : GenericImage) (t : Int) :
    Except (String × String) (GenericImage × ImHost) :=
  GenericImage.convert host w t (GenericImage.interleavedQ host w)

/-! ## Host model for MTensor and the GenericTensor wrapper (Tensor.hpp) -/

/-- The host-side content of one MTensor. -/
structure TensorData where
  ttype : Int
  dims : List Int
  data : List Int
deriving DecidableEq, Repr

/-- The host's MTensor storage. -/
structure TenHost where
  tensors : List (Nat × TensorData)
  nextHandle : Nat
deriving DecidableEq, Repr

/-- Host well-formedness: the fresh-handle counter is above every live handle. -/
def TenHost.wf (h : TenHost) : Prop :=
  ∀ p ∈ h.tensors, p.1 < h.nextHandle

instance (h : TenHost) : Decidable (TenHost.wf h) := by
  unfold TenHost.wf; infer_instance

/-- Model of the host call `API()->MTensor_clone`: deep copy to a fresh handle,
or failure (none) when the source handle is dead. -/
def TenHost.cloneTensor (host : TenHost) (h : Nat) : Option (Nat × TenHost) :=
  match assocFind h host.tensors with
  | none => none
  | some t => some (host.nextHandle, ⟨host.tensors ++ [(host.nextHandle, t)], host.nextHandle + 1⟩)

/-- The GenericTensor wrapper of the PassingMode-template era. -/
structure GenericTensor where
  container : Nat
  passMode : PassingMode
deriving DecidableEq, Repr

/-- Embedding of `MContainer<MArgumentType::Tensor, PassingMode>::cloneImpl`
(Tensor.hpp 228-234): call the host's MTensor_clone; on host failure throw
ErrorName::TensorCloneError, otherwise return the fresh raw container. -/
def GenericTensor.cloneImpl (host : TenHost) (w : GenericTensor) : Except String (Nat × TenHost) :=
  match host.cloneTensor w.container with
  | none => Except.error ErrorName.TensorCloneError
  | some r => Except.ok r

/-- Modelled from the spec: `MContainerBase::clone()` lives in
Containers/Generic/Base.hpp, absent from the slice; per spec section 4.2 the
clone is the host-level deep copy from `cloneImpl` and the result is
Library-owned regardless of the source's policy. -/
def GenericTensor.clone (host : TenHost) (w : GenericTensor) :
    Except String ((Nat × Ownership) × TenHost) :=
  match GenericTensor.cloneImpl host w with
  | Except.error e => Except.error e
  | Except.ok r => Except.ok ((r.1, Ownership.Library), r.2)

/-! ## ErrorManager (LibraryLinkError.cpp lines 120-151)

The registry maps error names to LibraryLinkError values (id, name, message);
ids are handed out downward from a counter. `set` uses map::emplace: nothing is
overwritten when the name already exists; the id counter is decremented by the
emplace argument evaluation and reverted when nothing was inserted, so its net
effect on a duplicate name is nil. On a duplicate name with a different
message, the registered ErrorManagerCreateNameError is thrown. -/

/-- A registered error: id, name, message (class LibraryLinkError). -/
structure LLError where
  id : Int
  name : String
  message : String
deriving DecidableEq, Repr

/-- Name lookup in the registry (map from names to LLError values). -/
def errLookup (k : String) : List (String × LLError) → Option LLError
  | [] => none
  | p :: rest => if k = p.1 then some p.2 else errLookup k rest

/-- The ErrorManager's process-wide state: registry plus next id. -/
structure ErrState where
  errMap : List (String × LLError)
  nextErrorId : Int
deriving DecidableEq, Repr

/-- Embedding of `ErrorManager::set` (LibraryLinkError.cpp 139-151): emplace
(name, {nextErrorId()--, name, message}); when the key already exists nothing
is inserted and nextErrorId is reverted; if additionally the existing message
differs from the new one, the ErrorManagerCreateNameError entry is thrown
(modelled by its name). -/
def ErrorManager.set (s : ErrState) (errorName errorMsg : String) : Except String ErrState :=
  match errLookup errorName s.errMap with
  | some existing =>
    if existing.message ≠ errorMsg then
      Except.error ErrorName.ErrorManagerCreateNameError
    else
      Except.ok s
  | none =>
    Except.ok ⟨s.errMap ++ [(errorName, ⟨s.nextErrorId, errorName, errorMsg⟩)], s.nextErrorId - 1⟩

/-- Embedding of `ErrorManager::registerPacletErrors` (LibraryLinkError.cpp
133-137): `for (auto&& err : errs) set(err);` — a thrown exception aborts the
loop and propagates. -/
def ErrorManager.registerPacletErrors (s : ErrState) :
    List (String × String) → Except String ErrState
  | [] => Except.ok s
  | e :: rest =>
    match ErrorManager.set s e.1 e.2 with
    | Except.error msg => Except.error msg
    | Except.ok s2 => ErrorManager.registerPacletErrors s2 rest

/-! ## Helper lemmas (shared) -/

/-- Lookup of a key that sits fresh at the tail of an association list. -/
theorem assocFind_append_self {α : Type} (l : List (Nat × α)) (n : Nat) (b : α)
    (h : ∀ p ∈ l, p.1 ≠ n) : assocFind n (l ++ [(n, b)]) = some b := by
  induction l with
  | nil => simp [assocFind]
  | cons p rest ih =>
    have hp : n ≠ p.1 := fun hc => h p (by simp) hc.symm
    rw [List.cons_append]
    show (if n = p.1 then some p.2 else assocFind n (rest ++ [(n, b)])) = some b
    rw [if_neg hp]
    exact ih (fun q hq => h q (List.mem_cons_of_mem p hq))

/-- A key above every key of an association list is absent from it. -/
theorem assocFind_none_of_big {α : Type} (l : List (Nat × α)) (n : Nat)
    (h : ∀ p ∈ l, p.1 < n) : assocFind n l = none := by
  induction l with
  | nil => rfl
  | cons p rest ih =>
    have hlt : p.1 < n := h p (by simp)
    have hp : n ≠ p.1 := by omega
    show (if n = p.1 then some p.2 else assocFind n rest) = none
    rw [if_neg hp]
    exact ih (fun q hq => h q (List.mem_cons_of_mem p hq))

/-- A character list begins with itself followed by anything. -/
theorem leadsWith_self_append (n post : List Char) : leadsWith n (n ++ post) = true := by
  induction n with
  | nil => rfl
  | cons a as ih => simp [leadsWith, ih]

/-- The empty segment occurs in every character list. -/
theorem hasSeg_nil (l : List Char) : hasSeg [] l = true := by
  cases l with
  | nil => rfl
  | cons b bs => simp [hasSeg, leadsWith]

/-- A segment occurs in any character list that embeds it between two others. -/
theorem hasSeg_of_decomp (pre n post : List Char) : hasSeg n (pre ++ (n ++ post)) = true := by
  induction pre with
  | nil =>
    cases n with
    | nil => simpa using hasSeg_nil post
    | cons a as =>
      have hl := leadsWith_self_append (a :: as) post
      simp only [List.cons_append] at hl
      simp [hasSeg, hl]
  | cons b bs ih =>
    cases n with
    | nil => exact hasSeg_nil _
    | cons a as =>
      simp only [List.cons_append, hasSeg, Bool.or_eq_true]
      right
      simpa using ih

/-- String data of an appended string. -/
theorem string_data_append (a b : String) : (a ++ b).data = a.data ++ b.data := by
  cases a
  cases b
  rfl

/-- A string carries every string it embeds between two others. -/
theorem strCarries_of_decomp (s pre post : String) :
    strCarries s (pre ++ s ++ post) = true := by
  have hdata : (pre ++ s ++ post).data = pre.data ++ (s.data ++ post.data) := by
    rw [string_data_append, string_data_append, List.append_assoc]
  show hasSeg s.data (pre ++ s ++ post).data = true
  rw [hdata]
  exact hasSeg_of_decomp pre.data s.data post.data

/-! ## Theorems settling the claims -/

/-- Claim C10 (counterexample): the claim "for every integral input r,
setMintAndCheck(r) stores r clamped into [MINT_MIN, MINT_MAX] and returns true
exactly when r >= MINT_MAX or r <= MINT_MIN" is false at the unsigned 64-bit
instantiation with input 5: the program stores MINT_MIN and returns true,
while the claim prescribes storing clamp(5) = 5 and returning false (5 is far
from both bounds). -/
theorem setMintAndCheck_uint64_counterexample :
    setMintAndCheckUInt64 5 = (MINT_MIN, true) ∧
    setMintAndCheckUInt64 5 ≠ (max MINT_MIN (min MINT_MAX 5), false) ∧
    max MINT_MIN (min MINT_MAX 5) = 5 ∧
    ¬ (MINT_MAX ≤ 5 ∨ (5 : Int) ≤ MINT_MIN) := by
  refine ⟨by decide, by decide, by decide, ?_⟩
  intro hor
  rcases hor with h | h
  · exact absurd h (by decide)
  · exact absurd h (by decide)

/-- Behaviour of setMintAndCheck at an unsigned 64-bit instantiation: the
second comparison uses the wrapped bound 2^63, so the boolean result is true
for every input below 2^64. -/
theorem setMintAndCheckUInt64_behavior :
    ∀ n : Nat, n < 2 ^ 64 →
      (2 ^ 63 - 1 ≤ n → setMintAndCheckUInt64 n = (MINT_MAX, true)) ∧
      (n < 2 ^ 63 - 1 → setMintAndCheckUInt64 n = (MINT_MIN, true)) ∧
      (setMintAndCheckUInt64 n).2 = true := by
  intro n _
  have hmax : uint64OfMint MINT_MAX = 2 ^ 63 - 1 := by decide
  have hmin : uint64OfMint MINT_MIN = 2 ^ 63 := by decide
  refine ⟨?_, ?_, ?_⟩
  · intro hge
    unfold setMintAndCheckUInt64
    rw [hmax, if_pos hge]
  · intro hlt
    unfold setMintAndCheckUInt64
    rw [hmax, hmin, if_neg (by omega), if_pos (by omega)]
  · unfold setMintAndCheckUInt64
    rw [hmax, hmin]
    by_cases hge : 2 ^ 63 - 1 ≤ n
    · rw [if_pos hge]
    · rw [if_neg hge, if_pos (by omega)]

/-- Value-preserving instantiations of setMintAndCheck: the stored value is the
clamp of the input and the boolean flags both bounds, boundary values
included. -/
theorem setMintAndCheck_value_semantics :
    ∀ r : Int,
      (setMintAndCheck r).1 = max MINT_MIN (min MINT_MAX r) ∧
      ((setMintAndCheck r).2 = true ↔ (MINT_MAX ≤ r ∨ r ≤ MINT_MIN)) ∧
      setMintAndCheck MINT_MAX = (MINT_MAX, true) ∧
      setMintAndCheck MINT_MIN = (MINT_MIN, true) := by
  intro r
  have hlims : MINT_MIN < MINT_MAX := by decide
  have hb1 : setMintAndCheck MINT_MAX = (MINT_MAX, true) := by
    unfold setMintAndCheck
    rw [if_pos le_rfl]
  have hb2 : setMintAndCheck MINT_MIN = (MINT_MIN, true) := by
    unfold setMintAndCheck
    rw [if_neg (by decide), if_pos le_rfl]
  refine ⟨?_, ?_, hb1, hb2⟩
  · unfold setMintAndCheck
    split_ifs with h1 h2
    · rw [min_eq_left h1, max_eq_right (le_of_lt hlims)]
    · rw [min_eq_right (le_trans h2 (le_of_lt hlims)), max_eq_left h2]
    · push_neg at h1 h2
      rw [min_eq_right (le_of_lt h1), max_eq_right (le_of_lt h2)]
  · unfold setMintAndCheck
    split_ifs with h1 h2
    · exact ⟨fun _ => Or.inl h1, fun _ => rfl⟩
    · exact ⟨fun _ => Or.inr h2, fun _ => rfl⟩
    · push_neg at h1 h2
      constructor
      · intro hfalse; exact absurd hfalse (by simp)
      · intro hor
        rcases hor with h | h
        · exact absurd h (not_le.mpr h1)
        · exact absurd h (not_le.mpr h2)

/-- Claim C10 (amended): at every instantiation whose comparisons with mint are
value-preserving (all signed integral types, unsigned types narrower than 64
bits), `setMintAndCheck(r)` stores r clamped into [MINT_MIN, MINT_MAX] and
returns true exactly when r >= MINT_MAX or r <= MINT_MIN, the representable
boundary values included; at an unsigned 64-bit instantiation the usual
arithmetic conversions turn `result <= MINT_MIN` into a comparison against the
wrapped bound 2^63, so the function returns true for every input below 2^64,
storing MINT_MAX when the input is at least 2^63 - 1 and MINT_MIN otherwise. -/
theorem setMintAndCheck_clamps_and_flags :
    (∀ r : Int,
      (setMintAndCheck r).1 = max MINT_MIN (min MINT_MAX r) ∧
      ((setMintAndCheck r).2 = true ↔ (MINT_MAX ≤ r ∨ r ≤ MINT_MIN)) ∧
      setMintAndCheck MINT_MAX = (MINT_MAX, true) ∧
      setMintAndCheck MINT_MIN = (MINT_MIN, true)) ∧
    (∀ n : Nat, n < 2 ^ 64 →
      (2 ^ 63 - 1 ≤ n → setMintAndCheckUInt64 n = (MINT_MAX, true)) ∧
      (n < 2 ^ 63 - 1 → setMintAndCheckUInt64 n = (MINT_MIN, true)) ∧
      (setMintAndCheckUInt64 n).2 = true) :=
  ⟨setMintAndCheck_value_semantics, setMintAndCheckUInt64_behavior⟩

/-- Witness for the amended C10 theorem: the unsigned 64-bit instantiation at
input 5 stores MINT_MIN and reports overflow. -/
theorem setMintAndCheck_clamps_and_flags_witness :
    (5 : Nat) < 2 ^ 64 ∧ (5 : Nat) < 2 ^ 63 - 1 ∧
    setMintAndCheckUInt64 5 = (MINT_MIN, true) :=
  ⟨by decide, by decide,
   (setMintAndCheck_clamps_and_flags.2 5 (by decide)).2.1 (by decide)⟩

/-- Claim C2: for every run-time element-kind tag inside the closed enumeration
(the 12 NumericArray kinds, the 3 Tensor kinds, the 5 Image kinds), the
dispatch operations invoke the caller-supplied operation exactly once,
instantiated at the native type matching that tag, with no default or fallback
execution (the raised component stays empty and the call list is the matching
singleton). -/
theorem dispatch_total_on_enum :
    ∀ index : Nat,
      operateOnNumericArray index MNumericArray_Type_Bit8 = ⟨[(NativeType.int8, index)], none⟩ ∧
      operateOnNumericArray index MNumericArray_Type_UBit8 = ⟨[(NativeType.uint8, index)], none⟩ ∧
      operateOnNumericArray index MNumericArray_Type_Bit16 = ⟨[(NativeType.int16, index)], none⟩ ∧
      operateOnNumericArray index MNumericArray_Type_UBit16 = ⟨[(NativeType.uint16, index)], none⟩ ∧
      operateOnNumericArray index MNumericArray_Type_Bit32 = ⟨[(NativeType.int32, index)], none⟩ ∧
      operateOnNumericArray index MNumericArray_Type_UBit32 = ⟨[(NativeType.uint32, index)], none⟩ ∧
      operateOnNumericArray index MNumericArray_Type_Bit64 = ⟨[(NativeType.int64, index)], none⟩ ∧
      operateOnNumericArray index MNumericArray_Type_UBit64 = ⟨[(NativeType.uint64, index)], none⟩ ∧
      operateOnNumericArray index MNumericArray_Type_Real32 = ⟨[(NativeType.float32, index)], none⟩ ∧
      operateOnNumericArray index MNumericArray_Type_Real64 = ⟨[(NativeType.float64, index)], none⟩ ∧
      operateOnNumericArray index MNumericArray_Type_Complex_Real32
        = ⟨[(NativeType.complexFloat, index)], none⟩ ∧
      operateOnNumericArray index MNumericArray_Type_Complex_Real64
        = ⟨[(NativeType.complexDouble, index)], none⟩ ∧
      operateOnTensor index MType_Integer = ⟨[(NativeType.mintType, index)], none⟩ ∧
      operateOnTensor index MType_Real = ⟨[(NativeType.float64, index)], none⟩ ∧
      operateOnTensor index MType_Complex = ⟨[(NativeType.complexDouble, index)], none⟩ ∧
      operateOnImage index MImage_Type_Bit = ⟨[(NativeType.int8, index)], none⟩ ∧
      operateOnImage index MImage_Type_Bit8 = ⟨[(NativeType.uint8, index)], none⟩ ∧
      operateOnImage index MImage_Type_Bit16 = ⟨[(NativeType.uint16, index)], none⟩ ∧
      operateOnImage index MImage_Type_Real32 = ⟨[(NativeType.float32, index)], none⟩ ∧
      operateOnImage index MImage_Type_Real = ⟨[(NativeType.float64, index)], none⟩ := by
  intro index
  exact ⟨rfl, rfl, rfl, rfl, rfl, rfl, rfl, rfl, rfl, rfl, rfl, rfl, rfl, rfl, rfl, rfl, rfl,
    rfl, rfl, rfl⟩

/-- Claim C3 (counterexample): the claim "for a tag outside the closed
enumeration dispatch raises the error carrying the numeric tag value for
diagnostics" is false at tag 100, argument index 5, for the Tensor dispatcher:
the operation is invoked zero times and an error is raised, but its debug
message does not carry the tag value 100 (it carries the argument index). -/
theorem dispatch_unknown_tag_counterexample :
    (operateOnTensor 5 100).calls = [] ∧
    (operateOnTensor 5 100).raised.isSome = true ∧
    raisedCarriesTagValue (operateOnTensor 5 100) 100 = false := by
  decide

/-- Claim C3 (amended): for every tag value outside the closed enumeration, the
dispatch invokes the caller's operation zero times and raises the argument-kind
error whose debug message carries the argument index (not the tag value) for
diagnostics. -/
theorem dispatch_unknown_tag_behavior :
    ∀ (index : Nat) (tag : Int),
      (tag ∉ naEnumTags →
        operateOnNumericArray index tag =
          ⟨[], some (ErrorName.MArgumentNumericArrayError,
            "Incorrect type of NumericArray argument. Argument index: " ++ toString index)⟩) ∧
      (tag ∉ tenEnumTags →
        operateOnTensor index tag =
          ⟨[], some (ErrorName.MArgumentTensorError,
            "Incorrect type of Tensor argument. Argument index: " ++ toString index)⟩) ∧
      (tag ∉ imEnumTags →
        operateOnImage index tag =
          ⟨[], some (ErrorName.MArgumentImageError,
            "Incorrect type of Image argument. Argument index: " ++ toString index)⟩) := by
  intro index tag
  refine ⟨fun h => ?_, fun h => ?_, fun h => ?_⟩
  · have h12 : tag ≠ 1 ∧ tag ≠ 2 ∧ tag ≠ 3 ∧ tag ≠ 4 ∧ tag ≠ 5 ∧ tag ≠ 6 ∧ tag ≠ 7 ∧
        tag ≠ 8 ∧ tag ≠ 9 ∧ tag ≠ 10 ∧ tag ≠ 11 ∧ tag ≠ 12 := by
      simp [naEnumTags] at h; tauto
    obtain ⟨h1, h2, h3, h4, h5, h6, h7, h8, h9, h10, h11, h12⟩ := h12
    simp [operateOnNumericArray, MNumericArray_Type_Bit8, MNumericArray_Type_UBit8,
      MNumericArray_Type_Bit16, MNumericArray_Type_UBit16, MNumericArray_Type_Bit32,
      MNumericArray_Type_UBit32, MNumericArray_Type_Bit64, MNumericArray_Type_UBit64,
      MNumericArray_Type_Real32, MNumericArray_Type_Real64, MNumericArray_Type_Complex_Real32,
      MNumericArray_Type_Complex_Real64, h1, h2, h3, h4, h5, h6, h7, h8, h9, h10, h11, h12]
  · have h3 : tag ≠ 2 ∧ tag ≠ 3 ∧ tag ≠ 4 := by
      simp [tenEnumTags] at h; tauto
    obtain ⟨h1, h2, h3⟩ := h3
    simp [operateOnTensor, MType_Integer, MType_Real, MType_Complex, h1, h2, h3]
  · have h5 : tag ≠ 1 ∧ tag ≠ 2 ∧ tag ≠ 3 ∧ tag ≠ 4 ∧ tag ≠ 5 := by
      simp [imEnumTags] at h; tauto
    obtain ⟨h1, h2, h3, h4, h5⟩ := h5
    simp [operateOnImage, MImage_Type_Bit, MImage_Type_Bit8, MImage_Type_Bit16,
      MImage_Type_Real32, MImage_Type_Real, h1, h2, h3, h4, h5]

/-- Witness for the amended C3 theorem, at tag 100 and argument index 5. -/
theorem dispatch_unknown_tag_behavior_witness :
    (100 : Int) ∉ tenEnumTags ∧
    operateOnTensor 5 100 =
      ⟨[], some (ErrorName.MArgumentTensorError,
        "Incorrect type of Tensor argument. Argument index: " ++ toString (5 : Nat))⟩ :=
  ⟨by decide, (dispatch_unknown_tag_behavior 5 100).2.1 (by decide)⟩

/-- Claim C1: for every wrapper (DataStore list, Image, Tensor) and every
passing policy of the source, `clone()` returns a new wrapper whose ownership
is Library-owned and whose underlying container is a deep copy obtained from
the host's copy/clone call (fresh handle, same content); the result's
ownership does not depend on the source wrapper's policy. -/
theorem clone_is_library_owned_deep_copy :
    (∀ (host : DSHost) (w : GenericDataList),
        (GenericDataList.clone host w).1.owner = Ownership.Library ∧
        (GenericDataList.clone host w).1.container = (host.copyDataStore w.container).1) ∧
    (∀ (host : DSHost) (w : GenericDataList), DSHost.wf host →
        assocFind (GenericDataList.clone host w).1.container host.stores = none ∧
        assocFind (GenericDataList.clone host w).1.container
            ((GenericDataList.clone host w).2.stores)
          = some ((assocFind w.container host.stores).getD [])) ∧
    (∀ (host : ImHost) (w : GenericImage) (c : Nat) (own : Ownership) (h2 : ImHost),
        GenericImage.clone host w = Except.ok ((c, own), h2) →
          own = Ownership.Library ∧ host.cloneImage w.container = some (c, h2)) ∧
    (∀ (host : ImHost) (w : GenericImage) (c : Nat) (own : Ownership) (h2 : ImHost)
        (img : ImageData),
        ImHost.wf host →
        assocFind w.container host.images = some img →
        GenericImage.clone host w = Except.ok ((c, own), h2) →
          assocFind c host.images = none ∧ assocFind c h2.images = some img) ∧
    (∀ (host : TenHost) (w : GenericTensor) (c : Nat) (own : Ownership) (h2 : TenHost),
        GenericTensor.clone host w = Except.ok ((c, own), h2) →
          own = Ownership.Library ∧ host.cloneTensor w.container = some (c, h2)) ∧
    (∀ (host : TenHost) (w : GenericTensor) (c : Nat) (own : Ownership) (h2 : TenHost)
        (td : TensorData),
        TenHost.wf host →
        assocFind w.container host.tensors = some td →
        GenericTensor.clone host w = Except.ok ((c, own), h2) →
          assocFind c host.tensors = none ∧ assocFind c h2.tensors = some td) := by
  refine ⟨?_, ?_, ?_, ?_, ?_, ?_⟩
  · intro host w
    exact ⟨rfl, rfl⟩
  · intro host w hwf
    constructor
    · exact assocFind_none_of_big host.stores host.nextHandle hwf
    · exact assocFind_append_self host.stores host.nextHandle _
        (fun p hp => by have := hwf p hp; omega)
  · intro host w c own h2 hok
    unfold GenericImage.clone at hok
    cases hcall : GenericImage.cloneImpl host w with
    | error e => rw [hcall] at hok; cases hok
    | ok r =>
      rw [hcall] at hok
      simp only [Except.ok.injEq, Prod.mk.injEq] at hok
      obtain ⟨⟨hc, hown⟩, hh⟩ := hok
      refine ⟨hown.symm, ?_⟩
      unfold GenericImage.cloneImpl at hcall
      cases hcall2 : host.cloneImage w.container with
      | none => rw [hcall2] at hcall; cases hcall
      | some r2 =>
        rw [hcall2] at hcall
        simp only [Except.ok.injEq] at hcall
        rw [hcall, ← hc, ← hh]
  · intro host w c own h2 img hwf hfind hok
    have hcall : host.cloneImage w.container
        = some (host.nextHandle,
            ⟨host.images ++ [(host.nextHandle, img)], host.nextHandle + 1⟩) := by
      unfold ImHost.cloneImage
      rw [hfind]
    have hclone : GenericImage.clone host w
        = Except.ok ((host.nextHandle, Ownership.Library),
            (⟨host.images ++ [(host.nextHandle, img)], host.nextHandle + 1⟩ : ImHost)) := by
      unfold GenericImage.clone GenericImage.cloneImpl
      rw [hcall]
    rw [hclone] at hok
    simp only [Except.ok.injEq, Prod.mk.injEq] at hok
    obtain ⟨⟨hc, hown⟩, hh⟩ := hok
    constructor
    · rw [← hc]
      exact assocFind_none_of_big host.images host.nextHandle hwf
    · rw [← hc, ← hh]
      exact assocFind_append_self host.images host.nextHandle img
        (fun p hp => by have := hwf p hp; omega)
  · intro host w c own h2 hok
    unfold GenericTensor.clone at hok
    cases hcall : GenericTensor.cloneImpl host w with
    | error e => rw [hcall] at hok; cases hok
    | ok r =>
      rw [hcall] at hok
      simp only [Except.ok.injEq, Prod.mk.injEq] at hok
      obtain ⟨⟨hc, hown⟩, hh⟩ := hok
      refine ⟨hown.symm, ?_⟩
      unfold GenericTensor.cloneImpl at hcall
      cases hcall2 : host.cloneTensor w.container with
      | none => rw [hcall2] at hcall; cases hcall
      | some r2 =>
        rw [hcall2] at hcall
        simp only [Except.ok.injEq] at hcall
        rw [hcall, ← hc, ← hh]
  · intro host w c own h2 td hwf hfind hok
    have hcall : host.cloneTensor w.container
        = some (host.nextHandle,
            ⟨host.tensors ++ [(host.nextHandle, td)], host.nextHandle + 1⟩) := by
      unfold TenHost.cloneTensor
      rw [hfind]
    have hclone : GenericTensor.clone host w
        = Except.ok ((host.nextHandle, Ownership.Library),
            (⟨host.tensors ++ [(host.nextHandle, td)], host.nextHandle + 1⟩ : TenHost)) := by
      unfold GenericTensor.clone GenericTensor.cloneImpl
      rw [hcall]
    rw [hclone] at hok
    simp only [Except.ok.injEq, Prod.mk.injEq] at hok
    obtain ⟨⟨hc, hown⟩, hh⟩ := hok
    constructor
    · rw [← hc]
      exact assocFind_none_of_big host.tensors host.nextHandle hwf
    · rw [← hc, ← hh]
      exact assocFind_append_self host.tensors host.nextHandle td
        (fun p hp => by have := hwf p hp; omega)

/-- Witness for C1: a concrete host with one container per wrapper kind, cloned
from a source wrapper that is not Library-owned. -/
theorem clone_is_library_owned_deep_copy_witness :
    ((GenericDataList.clone ⟨[(0, [⟨none, NodeValue.intVal 3⟩])], 1⟩
        ⟨0, Ownership.LibraryLink⟩).1.owner = Ownership.Library ∧
      (GenericDataList.clone ⟨[(0, [⟨none, NodeValue.intVal 3⟩])], 1⟩
        ⟨0, Ownership.LibraryLink⟩).1.container
        = ((⟨[(0, [⟨none, NodeValue.intVal 3⟩])], 1⟩ : DSHost).copyDataStore 0).1) ∧
    (assocFind (GenericDataList.clone ⟨[(0, [⟨none, NodeValue.intVal 3⟩])], 1⟩
        ⟨0, Ownership.LibraryLink⟩).1.container
        [(0, [(⟨none, NodeValue.intVal 3⟩ : DataNode)])] = none) ∧
    (Ownership.Library = Ownership.Library ∧
      (⟨[(0, ⟨2, true, [7]⟩)], 1⟩ : ImHost).cloneImage 0
        = some (1, ⟨[(0, ⟨2, true, [7]⟩), (1, ⟨2, true, [7]⟩)], 2⟩)) ∧
    (assocFind 1 [(0, (⟨2, true, [7]⟩ : ImageData))] = none ∧
      assocFind 1 [(0, (⟨2, true, [7]⟩ : ImageData)), (1, ⟨2, true, [7]⟩)]
        = some ⟨2, true, [7]⟩) ∧
    (Ownership.Library = Ownership.Library ∧
      (⟨[(0, ⟨2, [3], [9]⟩)], 1⟩ : TenHost).cloneTensor 0
        = some (1, ⟨[(0, ⟨2, [3], [9]⟩), (1, ⟨2, [3], [9]⟩)], 2⟩)) :=
  ⟨clone_is_library_owned_deep_copy.1 ⟨[(0, [⟨none, NodeValue.intVal 3⟩])], 1⟩
      ⟨0, Ownership.LibraryLink⟩,
   (clone_is_library_owned_deep_copy.2.1 ⟨[(0, [⟨none, NodeValue.intVal 3⟩])], 1⟩
      ⟨0, Ownership.LibraryLink⟩ (by decide)).1,
   clone_is_library_owned_deep_copy.2.2.1 ⟨[(0, ⟨2, true, [7]⟩)], 1⟩ ⟨0, PassingMode.Constant⟩
      1 Ownership.Library ⟨[(0, ⟨2, true, [7]⟩), (1, ⟨2, true, [7]⟩)], 2⟩ rfl,
   clone_is_library_owned_deep_copy.2.2.2.1 ⟨[(0, ⟨2, true, [7]⟩)], 1⟩
      ⟨0, PassingMode.Constant⟩ 1 Ownership.Library
      ⟨[(0, ⟨2, true, [7]⟩), (1, ⟨2, true, [7]⟩)], 2⟩ ⟨2, true, [7]⟩
      (by decide) (by decide) rfl,
   clone_is_library_owned_deep_copy.2.2.2.2.1 ⟨[(0, ⟨2, [3], [9]⟩)], 1⟩
      ⟨0, PassingMode.Shared⟩ 1 Ownership.Library
      ⟨[(0, ⟨2, [3], [9]⟩), (1, ⟨2, [3], [9]⟩)], 2⟩ rfl⟩

/-- Claim C4: constructing a GenericDataList with Shared ownership fails at
construction time with an exception; no Shared wrapper is ever successfully
created. -/
theorem shared_datalist_construction_fails :
    (∀ c : Nat, GenericDataList.construct c Ownership.Shared
        = Except.error ("SharedDataStoreError")) ∧
    (∀ (c : Nat) (o : Ownership) (w : GenericDataList),
        GenericDataList.construct c o = Except.ok w →
          o ≠ Ownership.Shared ∧ w.owner ≠ Ownership.Shared) := by
  constructor
  · intro c
    rfl
  · intro c o w hok
    unfold GenericDataList.construct at hok
    by_cases ho : o = Ownership.Shared
    · rw [if_pos ho] at hok
      cases hok
    · rw [if_neg ho] at hok
      simp only [Except.ok.injEq] at hok
      exact ⟨ho, by rw [← hok]; exact ho⟩

/-- Witness for C4 at container handle 7. -/
theorem shared_datalist_construction_fails_witness :
    GenericDataList.construct 7 Ownership.Shared = Except.error ("SharedDataStoreError") ∧
    (Ownership.Library ≠ Ownership.Shared ∧
      (⟨7, Ownership.Library⟩ : GenericDataList).owner ≠ Ownership.Shared) :=
  ⟨shared_datalist_construction_fails.1 7,
   shared_datalist_construction_fails.2 7 Ownership.Library ⟨7, Ownership.Library⟩ rfl⟩

/-- Claim C5: for every image wrapper under any passing policy and every target
element kind t, `convert(t, ...)` produces a new handle with Manual passing
mode whose element kind is t; if the host rejects the conversion, convert
fails with the conversion-failure error (ErrorName::ImageNewError in the
source) whose message names the target kind t. -/
theorem image_convert_manual_and_names_target :
    ∀ (host : ImHost) (w : GenericImage) (t : Int) (ilv : Bool),
      (∀ (w2 : GenericImage) (host2 : ImHost),
          GenericImage.convert host w t ilv = Except.ok (w2, host2) →
            w2.passMode = PassingMode.Manual ∧
            (ImHost.wf host →
              ∃ d : List Int, assocFind w2.container host2.images = some ⟨t, ilv, d⟩)) ∧
      (∀ e : String × String,
          GenericImage.convert host w t ilv = Except.error e →
            e.1 = ErrorName.ImageNewError ∧
            e.2 = "Conversion to type " ++ toString t ++ " failed." ∧
            strCarries (toString t) e.2 = true) ∧
      (∀ (w2 : GenericImage) (host2 : ImHost),
          GenericImage.convertKeepingInterleaving host w t = Except.ok (w2, host2) →
            w2.passMode = PassingMode.Manual) := by
  intro host w t ilv
  refine ⟨?_, ?_, ?_⟩
  · intro w2 host2 hok
    unfold GenericImage.convert at hok
    cases hcall : host.convertType w.container t ilv with
    | none => rw [hcall] at hok; cases hok
    | some r =>
      rw [hcall] at hok
      simp only [Except.ok.injEq, Prod.mk.injEq] at hok
      obtain ⟨hw2, hh2⟩ := hok
      refine ⟨by rw [← hw2], ?_⟩
      intro hwf
      unfold ImHost.convertType at hcall
      cases hfind : assocFind w.container host.images with
      | none => rw [hfind] at hcall; cases hcall
      | some img =>
        rw [hfind] at hcall
        simp only [Option.some.injEq] at hcall
        refine ⟨img.data, ?_⟩
        rw [← hw2, ← hh2, ← hcall]
        exact assocFind_append_self host.images host.nextHandle ⟨t, ilv, img.data⟩
          (fun p hp => by have := hwf p hp; omega)
  · intro e herr
    unfold GenericImage.convert at herr
    cases hcall : host.convertType w.container t ilv with
    | none =>
      rw [hcall] at herr
      simp only [Except.error.injEq] at herr
      refine ⟨by rw [← herr], by rw [← herr], ?_⟩
      rw [← herr]
      exact strCarries_of_decomp (toString t) ("Conversion to type ") (" failed.")
    | some r => rw [hcall] at herr; cases herr
  · intro w2 host2 hok
    unfold GenericImage.convertKeepingInterleaving GenericImage.convert at hok
    cases hcall : host.convertType w.container t (GenericImage.interleavedQ host w) with
    | none => rw [hcall] at hok; cases hok
    | some r =>
      rw [hcall] at hok
      simp only [Except.ok.injEq, Prod.mk.injEq] at hok
      rw [← hok.1]

/-- Witness for C5: a successful conversion of a live image (from a Shared
source) and a rejected conversion of a dead handle. -/
theorem image_convert_manual_and_names_target_witness :
    ((⟨1, PassingMode.Manual⟩ : GenericImage).passMode = PassingMode.Manual ∧
      ∃ d : List Int,
        assocFind 1 [(0, (⟨2, true, [7]⟩ : ImageData)), (1, ⟨4, false, [7]⟩)]
          = some ⟨4, false, d⟩) ∧
    ((ErrorName.ImageNewError, "Conversion to type 4 failed.").1 = ErrorName.ImageNewError ∧
      (ErrorName.ImageNewError, "Conversion to type 4 failed.").2
        = "Conversion to type " ++ toString (4 : Int) ++ " failed." ∧
      strCarries (toString (4 : Int)) ("Conversion to type 4 failed.") = true) := by
  constructor
  · have h := (image_convert_manual_and_names_target ⟨[(0, ⟨2, true, [7]⟩)], 1⟩
      ⟨0, PassingMode.Shared⟩ 4 false).1 ⟨1, PassingMode.Manual⟩
      ⟨[(0, ⟨2, true, [7]⟩), (1, ⟨4, false, [7]⟩)], 2⟩ rfl
    exact ⟨h.1, h.2 (by decide)⟩
  · have h := (image_convert_manual_and_names_target ⟨[(0, ⟨2, true, [7]⟩)], 1⟩
      ⟨5, PassingMode.Automatic⟩ 4 false).2.1
      (ErrorName.ImageNewError, "Conversion to type 4 failed.") rfl
    exact h

/-- Claim C6: a push_back of a value whose run-time kind is the ambiguous
dual-purpose MTensor/MNumericArray kind fails with UnsupportedNodeTypeError
rather than appending a node. -/
theorem push_back_rejects_ambiguous_kind :
    ∀ (nodes : List DataNode) (name : Option String) (v : NodeValue),
      (v.kind = MArgKind.MTensorOrNumericArray →
        GenericDataList.pushBackAny nodes name v = Except.error ("UnsupportedNodeTypeError")) ∧
      (∀ nodes2 : List DataNode,
        GenericDataList.pushBackAny nodes name v = Except.ok nodes2 →
          v.kind ≠ MArgKind.MTensorOrNumericArray) := by
  intro nodes name v
  constructor
  · intro hk
    unfold GenericDataList.pushBackAny
    rw [if_pos hk]
  · intro nodes2 hok hk
    unfold GenericDataList.pushBackAny at hok
    rw [if_pos hk] at hok
    cases hok

/-- Witness for C6 at a tensor-or-numeric-array node value. -/
theorem push_back_rejects_ambiguous_kind_witness :
    (NodeValue.tensorOrNumericArrayVal 3).kind = MArgKind.MTensorOrNumericArray ∧
    GenericDataList.pushBackAny [] none (NodeValue.tensorOrNumericArrayVal 3)
      = Except.error ("UnsupportedNodeTypeError") :=
  ⟨rfl, (push_back_rejects_ambiguous_kind [] none (NodeValue.tensorOrNumericArrayVal 3)).1 rfl⟩

/-- Claim C7: the share-count query of a GenericDataList returns 0 for every
wrapper in every world reachable by any sequence of operations (aliasing,
appends, clones), no matter how many wrapper instances reference the same raw
DataStore handle. -/
theorem datalist_share_count_always_zero :
    ∀ (w0 : DSWorld) (ops : List DSOp) (g : GenericDataList),
      g ∈ (DSWorld.run w0 ops).wrappers →
      GenericDataList.shareCountImpl g (DSWorld.run w0 ops).host = 0 := by
  intro w0 ops g _
  rfl

/-- Witness for C7: a world where two wrappers alias handle 0, a node is
appended, and a clone is taken; the share count of the alias is 0. -/
theorem datalist_share_count_always_zero_witness :
    (⟨0, Ownership.Library⟩ : GenericDataList) ∈
      (DSWorld.run ⟨⟨[(0, [])], 1⟩, [⟨0, Ownership.LibraryLink⟩]⟩
        [DSOp.aliasHandle 0 Ownership.Library,
         DSOp.pushBack 0 none (NodeValue.intVal 5),
         DSOp.cloneWrapper 1]).wrappers ∧
    GenericDataList.shareCountImpl ⟨0, Ownership.Library⟩
      (DSWorld.run ⟨⟨[(0, [])], 1⟩, [⟨0, Ownership.LibraryLink⟩]⟩
        [DSOp.aliasHandle 0 Ownership.Library,
         DSOp.pushBack 0 none (NodeValue.intVal 5),
         DSOp.cloneWrapper 1]).host = 0 :=
  ⟨by decide,
   datalist_share_count_always_zero ⟨⟨[(0, [])], 1⟩, [⟨0, Ownership.LibraryLink⟩]⟩
     [DSOp.aliasHandle 0 Ownership.Library,
      DSOp.pushBack 0 none (NodeValue.intVal 5),
      DSOp.cloneWrapper 1] ⟨0, Ownership.Library⟩ (by decide)⟩

/-- Claim C8: for every DataStore node value and requested type T, the typed
read returns the stored value when the node's run-time kind matches T and
fails with DLInvalidNodeType when it does not. -/
theorem node_typed_read_checks_kind :
    ∀ (v : NodeValue) (T : MArgKind),
      (v.kind = T → GenericDataNode.as T v = Except.ok v) ∧
      (v.kind ≠ T → GenericDataNode.as T v = Except.error ErrorName.DLInvalidNodeType) := by
  intro v T
  constructor
  · intro h
    unfold GenericDataNode.as
    rw [if_pos h]
  · intro h
    unfold GenericDataNode.as
    rw [if_neg h]

/-- Witness for C8: reading an integer node as integer succeeds, as real
fails. -/
theorem node_typed_read_checks_kind_witness :
    GenericDataNode.as MArgKind.MInteger (NodeValue.intVal 3)
      = Except.ok (NodeValue.intVal 3) ∧
    GenericDataNode.as MArgKind.MReal (NodeValue.intVal 3)
      = Except.error ErrorName.DLInvalidNodeType :=
  ⟨(node_typed_read_checks_kind (NodeValue.intVal 3) MArgKind.MInteger).1 rfl,
   (node_typed_read_checks_kind (NodeValue.intVal 3) MArgKind.MReal).2 (by decide)⟩

/-- Claim C9: re-registering an already registered error name with a different
message throws ErrorManagerCreateNameError and never replaces the existing
entry; re-registering it with the identical message does not throw (and leaves
the registry unchanged). Both `set` and `registerPacletErrors` behave so. -/
theorem error_reregistration_rules :
    ∀ (s : ErrState) (n m2 : String) (err : LLError),
      errLookup n s.errMap = some err →
      (m2 ≠ err.message →
        ErrorManager.set s n m2 = Except.error ErrorName.ErrorManagerCreateNameError ∧
        ErrorManager.registerPacletErrors s [(n, m2)]
          = Except.error ErrorName.ErrorManagerCreateNameError) ∧
      (∀ s2 : ErrState, ErrorManager.set s n m2 = Except.ok s2 → s2 = s) ∧
      ErrorManager.set s n err.message = Except.ok s ∧
      ErrorManager.registerPacletErrors s [(n, err.message)] = Except.ok s := by
  intro s n m2 err hfind
  have hset : ∀ msg : String, ErrorManager.set s n msg
      = if err.message ≠ msg then Except.error ErrorName.ErrorManagerCreateNameError
        else Except.ok s := by
    intro msg
    unfold ErrorManager.set
    rw [hfind]
  have hsame : ErrorManager.set s n err.message = Except.ok s := by
    rw [hset err.message, if_neg (fun hc => hc rfl)]
  refine ⟨?_, ?_, hsame, ?_⟩
  · intro hne
    have h1 : ErrorManager.set s n m2
        = Except.error ErrorName.ErrorManagerCreateNameError := by
      rw [hset m2, if_pos (fun hc => hne hc.symm)]
    refine ⟨h1, ?_⟩
    simp only [ErrorManager.registerPacletErrors, h1]
  · intro s2 hok
    rw [hset m2] at hok
    by_cases hmsg : err.message ≠ m2
    · rw [if_pos hmsg] at hok
      cases hok
    · rw [if_neg hmsg] at hok
      simp only [Except.ok.injEq] at hok
      exact hok.symm
  · simp only [ErrorManager.registerPacletErrors, hsame]

/-- Witness for C9 on a registry holding one error with message "msg one". -/
theorem error_reregistration_rules_witness :
    (ErrorManager.set ⟨[(("E1"), ⟨7, ("E1"), ("msg one")⟩)], 6⟩ ("E1") ("other")
        = Except.error ErrorName.ErrorManagerCreateNameError ∧
      ErrorManager.registerPacletErrors ⟨[(("E1"), ⟨7, ("E1"), ("msg one")⟩)], 6⟩
          [(("E1"), ("other"))]
        = Except.error ErrorName.ErrorManagerCreateNameError) ∧
    ErrorManager.set ⟨[(("E1"), ⟨7, ("E1"), ("msg one")⟩)], 6⟩ ("E1")
        ((⟨7, ("E1"), ("msg one")⟩ : LLError).message)
      = Except.ok ⟨[(("E1"), ⟨7, ("E1"), ("msg one")⟩)], 6⟩ :=
  ⟨(error_reregistration_rules ⟨[(("E1"), ⟨7, ("E1"), ("msg one")⟩)], 6⟩ ("E1") ("other")
      ⟨7, ("E1"), ("msg one")⟩ (by decide)).1 (by decide),
   (error_reregistration_rules ⟨[(("E1"), ⟨7, ("E1"), ("msg one")⟩)], 6⟩ ("E1") ("other")
      ⟨7, ("E1"), ("msg one")⟩ (by decide)).2.2.1⟩

end LLU
